import Mathlib

/-!
Formal model of the AI visual-regression judge harness.

The source under scrutiny is a Playwright/TypeScript test harness:
  * `analyzeVisualTest` (tests/box-visual-ai.spec.ts) judges a before/after
    screenshot pair via a remote multimodal model and validates the reply;
  * `analyzeFrameSequenceTest` (frame-sequence spec) judges an ordered list
    of frames; `analyzeVideoTest` (video spec) judges a WebM clip;
  * each test gates pass/fail on `expect(status).toBe('PASS')` and
    `expect(certainty).toBeGreaterThanOrEqual(CONFIDENCE_THRESHOLD)`;
  * `run-spec-metrics.js` repeats a whole spec N times and aggregates
    pass/fail counts with an optional abort threshold.

The model below embeds the response-processing, prompt-building, gating and
metrics-loop logic shallowly: the network call is abstracted as an
`Except`-valued outcome the `try`/`catch` block observes, JavaScript runtime
values of the parsed judge reply as an explicit value type, and JS string
interpolation as string concatenation.
-/

set_option maxRecDepth 10000

/-- A JavaScript runtime value, as a field of the JSON.parse result of the
judge's reply may hold one. `certainty` is modelled as a rational: the
source only ever compares it, so exact arithmetic is a faithful embedding
of the comparisons performed. -/
inductive JsonVal where
  | str (s : String)
  | num (q : ℚ)
  | bool (b : Bool)
  | null
deriving DecidableEq

/-- JavaScript truthiness of a possibly-absent value (`undefined`, `null`,
`""`, `0` and `false` are falsy), as the checks `!parsed.status` and
`!parsed.reasoning` in `analyzeVisualTest` use it. -/
def jsTruthy : Option JsonVal → Bool
  | some (.str s) => !s.data.isEmpty
  | some (.num q) => !(q == 0)
  | some (.bool b) => b
  | some .null => false
  | none => false

/-- `typeof v === 'number'` on a possibly-absent field. -/
def jsIsNumber : Option JsonVal → Bool
  | some (.num _) => true
  | _ => false

/-- The object `JSON.parse` yields for a judge reply, projected to the three
fields the harness reads. A field the reply does not carry is `none`
(JavaScript `undefined`). -/
structure VerdictObj where
  status : Option JsonVal
  certainty : Option JsonVal
  reasoning : Option JsonVal
deriving DecidableEq

/-- The `tokens` record the frame-sequence and video analyzers attach:
`{ prompt, candidates, total }`. -/
structure TokenCounts where
  prompt : Nat
  candidates : Nat
  total : Nat
deriving DecidableEq

/-- `result.response.usageMetadata` as the analyzers read it; each counter
may be absent. -/
structure UsageMetadata where
  promptTokenCount : Option Nat
  candidatesTokenCount : Option Nat
  totalTokenCount : Option Nat
deriving DecidableEq

/-- The token extraction both the frame-sequence and the video analyzer
perform:
`prompt: usage.promptTokenCount ?? 0`,
`candidates: usage.candidatesTokenCount ?? 0`,
`total: usage.totalTokenCount ?? (usage.promptTokenCount ?? 0) + (usage.candidatesTokenCount ?? 0)`. -/
def tokenCountsFromUsage (u : UsageMetadata) : TokenCounts :=
  { prompt := u.promptTokenCount.getD 0
    candidates := u.candidatesTokenCount.getD 0
    total := u.totalTokenCount.getD
      (u.promptTokenCount.getD 0 + u.candidatesTokenCount.getD 0) }

/-- What an analyzer returns: the three verdict fields, plus the `tokens`
record when the analyzer attaches one (`analyzeVisualTest` never does). -/
structure AiResult where
  status : Option JsonVal
  certainty : Option JsonVal
  reasoning : Option JsonVal
  tokens : Option TokenCounts
deriving DecidableEq

/-- What one `model.generateContent` round trip plus `JSON.parse` delivers to
the rest of the `try` block: `.error msg` when the call or the parse threw
(transport, authentication, service or JSON syntax error, with the thrown
message), `.ok (parsed, usageMetadata)` otherwise. The usage metadata may be
absent (`(result.response as any).usageMetadata || {}`). -/
abbrev GatewayOutcome := Except String (VerdictObj × Option UsageMetadata)

/-- The `catch` branch of `analyzeVisualTest`:
`{ status: 'FAIL', certainty: 0.0, reasoning: "Error during AI analysis: " + message }`
(no `tokens` field). -/
def visualSynthetic (msg : String) : AiResult :=
  { status := some (.str "FAIL")
    certainty := some (.num 0)
    reasoning := some (.str ("Error during AI analysis: " ++ msg))
    tokens := none }

/-- The first validation of `analyzeVisualTest`:
`!parsed.status || typeof parsed.certainty !== 'number' || !parsed.reasoning`
throws. True when none of the three conditions throws. -/
def visualFieldsOk (p : VerdictObj) : Bool :=
  jsTruthy p.status && jsIsNumber p.certainty && jsTruthy p.reasoning

/-- The second validation of `analyzeVisualTest`:
`parsed.status !== 'PASS' && parsed.status !== 'FAIL'` throws. -/
def visualStatusOk (p : VerdictObj) : Bool :=
  p.status == some (.str "PASS") || p.status == some (.str "FAIL")

/-- Response processing of `analyzeVisualTest` (box-visual-ai.spec.ts): the
validation `throw`s are raised inside the `try`, so they land in the same
`catch` as transport and parse errors, with their messages. A reply that
passes both validations is returned as-is (`return parsed`), with no range
check on `certainty` and no `tokens` field. -/
def analyzeVisualTest (o : GatewayOutcome) : AiResult :=
  match o with
  | .error msg => visualSynthetic msg
  | .ok (parsed, _usage) =>
    if !visualFieldsOk parsed then
      visualSynthetic "AI response missing required fields (status, certainty, reasoning)."
    else if !visualStatusOk parsed then
      visualSynthetic "AI status is invalid (must be PASS or FAIL)."
    else
      { status := parsed.status, certainty := parsed.certainty,
        reasoning := parsed.reasoning, tokens := none }

/-- The `catch` branch shared by `analyzeFrameSequenceTest` and
`analyzeVideoTest`:
`{ status: 'FAIL', certainty: 0.0, reasoning: 'Error: ' + message, tokens: { prompt: 0, candidates: 0, total: 0 } }`. -/
def seqErrorResult (msg : String) : AiResult :=
  { status := some (.str "FAIL")
    certainty := some (.num 0)
    reasoning := some (.str ("Error: " ++ msg))
    tokens := some ⟨0, 0, 0⟩ }

/-- Response processing of `analyzeFrameSequenceTest` (frame-sequence spec):
no validation at all — `return { ...parsed, tokens }` spreads the parsed
object and always attaches the token record extracted from the (possibly
absent) usage metadata. -/
def analyzeFrameSequenceTest (o : GatewayOutcome) : AiResult :=
  match o with
  | .error msg => seqErrorResult msg
  | .ok (parsed, usage) =>
    { status := parsed.status, certainty := parsed.certainty,
      reasoning := parsed.reasoning,
      tokens := some (tokenCountsFromUsage (usage.getD ⟨none, none, none⟩)) }

/-- Response processing of `analyzeVideoTest` (video spec): its body is
line-for-line the same as the frame-sequence analyzer's. -/
def analyzeVideoTest (o : GatewayOutcome) : AiResult :=
  match o with
  | .error msg => seqErrorResult msg
  | .ok (parsed, usage) =>
    { status := parsed.status, certainty := parsed.certainty,
      reasoning := parsed.reasoning,
      tokens := some (tokenCountsFromUsage (usage.getD ⟨none, none, none⟩)) }

/-- Truthiness of the `GEMINI_API_KEY` environment variable: `undefined`
(variable absent) and the empty string are falsy. -/
def envTruthy : Option String → Bool
  | none => false
  | some s => !s.data.isEmpty

/-- One call of an analyze function as its caller observes it: either a
raised error or a returned result, together with whether control ever
reached the client construction and `generateContent` request (the `try`
block). -/
structure RunTrace where
  result : Except String AiResult
  networkAttempted : Bool

/-- `analyzeVisualTest` including its credential guard: `if (!GEMINI_API_KEY)
throw new Error('GEMINI_API_KEY environment variable not set.')` stands
before the client is constructed and before any request is sent. -/
def analyzeVisualTestRun (apiKey : Option String) (o : GatewayOutcome) : RunTrace :=
  if envTruthy apiKey then ⟨.ok (analyzeVisualTest o), true⟩
  else ⟨.error "GEMINI_API_KEY environment variable not set.", false⟩

/-- `analyzeFrameSequenceTest` including its credential guard:
`if (!GEMINI_API_KEY) throw new Error('GEMINI_API_KEY not set')`. -/
def analyzeFrameSequenceTestRun (apiKey : Option String) (o : GatewayOutcome) : RunTrace :=
  if envTruthy apiKey then ⟨.ok (analyzeFrameSequenceTest o), true⟩
  else ⟨.error "GEMINI_API_KEY not set", false⟩

/-- `analyzeVideoTest` including its credential guard, identical to the
frame-sequence one. -/
def analyzeVideoTestRun (apiKey : Option String) (o : GatewayOutcome) : RunTrace :=
  if envTruthy apiKey then ⟨.ok (analyzeVideoTest o), true⟩
  else ⟨.error "GEMINI_API_KEY not set", false⟩

/-- The categorical status of a canonical Verdict, as the Decision Gate
compares it (`expect(result.status).toBe('PASS')`). -/
inductive Status where
  | PASS
  | FAIL
deriving DecidableEq

/-- A canonical Verdict as the Decision Gate consumes one: a categorical
status, a certainty scalar and a diagnostic reasoning string. -/
structure Verdict where
  status : Status
  certainty : ℚ
  reasoning : String
deriving DecidableEq

/-- The Decision Gate: a scenario attempt passes exactly when both
`expect(result.status).toBe('PASS')` and
`expect(result.certainty).toBeGreaterThanOrEqual(CONFIDENCE_THRESHOLD)`
hold — an inclusive threshold comparison. -/
def decideGate (v : Verdict) (threshold : ℚ) : Bool :=
  (v.status == Status.PASS) && decide (threshold ≤ v.certainty)

/-- `pat.isPrefixOf`-style head match on character lists (first argument is
the pattern). -/
def leadsWith : List Char → List Char → Bool
  | [], _ => true
  | _ :: _, [] => false
  | a :: as, b :: bs => a == b && leadsWith as bs

/-- Whether `pat` occurs as a contiguous segment of the second list. -/
def hasSegment (pat : List Char) : List Char → Bool
  | [] => pat.isEmpty
  | c :: rest => leadsWith pat (c :: rest) || hasSegment pat rest

/-- Substring test on strings: `strHas hay pat` is true when `pat` occurs
contiguously in `hay`. -/
def strHas (hay pat : String) : Bool := hasSegment pat.data hay.data

/-- ASCII-style lowercasing by character, modelling the case-insensitivity
of the `/.../i` regular-expression flag on the vocabulary the harness scans
for (plain ASCII words). -/
def strLower (s : String) : String := ⟨s.data.map Char.toLower⟩

/-- The movement-intent test `/moves?|shift(s)?|translate(s)?/i.test(testContext)`
of `analyzeVisualTest` and `analyzeVideoTest`. For `RegExp.test` the
optional trailing `s?` is irrelevant (a hit on "moves" contains a hit on
"move"), so the regex holds exactly when the text contains "move", "shift"
or "translate" case-insensitively. -/
def movementIntent (ctx : String) : Bool :=
  strHas (strLower ctx) "move" || strHas (strLower ctx) "shift" ||
    strHas (strLower ctx) "translate"

/-- The movement-aware instruction variant. -/
def movementNoteText : String :=
  "If the test context describes movement, you MUST consider object position changes; measure horizontal pixel shift."

/-- The appearance/stability instruction variant. -/
def stabilityNoteText : String :=
  "Assume object position remains stable; focus on visual appearance changes."

/-- `movementAwareNote` as `analyzeVisualTest` and `analyzeVideoTest` select
it from the test context. -/
def movementAwareNote (ctx : String) : String :=
  if movementIntent ctx then movementNoteText else stabilityNoteText

/-- Opening of the `analyzeVisualTest` prompt template, up to and including
the newline before the `${movementAwareNote}` interpolation. -/
def visualPromptIntro : String :=
  "\nYou are a hyper-focused AI Quality Assurance Analyst. Your task is to determine if a specific visual change occurred between a \"Before\" and \"After\" screenshot, based on a \"Test Context\".\n\nYou are currently looking at a threeJS application, rendering a 3D scene as well as a orbit camera and UI elements.\n"

/-- The fixed middle of the `analyzeVisualTest` prompt template: everything
between the `${movementAwareNote}` interpolation and the `${testContext}`
interpolation (braces of the source's literal JSON examples written as
escapes). -/
def visualPromptMid : String :=
  "\n\nAnalysis Instructions:\n1. Identify the Subject from Test Context.\n2. Focus ONLY on this subject; ignore noise.\n3. If movement: estimate X,Y pixel center before vs after; report them.\n4. Decide PASS if change matches description; else FAIL.\n\nTo help with your analysis, a git diff is also provided showing code changes made since. These changes are not guaranteed to be related to the test, but may provide useful context.\n\nRespond ONLY with JSON:\n\x7b \"status\": \"PASS\"|\"FAIL\", \"certainty\": 0.0-1.0, \"reasoning\": \"…\" \x7d\n\n---\n\n## EXAMPLE 1: (PASS)\n\n\n\n[IMAGE 1: \"before.png\" shows a blue car in the center]\n\n[IMAGE 2: \"after.png\" shows the same blue car on the right]\n\n\n\nTest Context: \"User presses the 'Nudge Right' button. The selected 4D entity should move to the right.\"\n\n\n\nPR Git Diff:\n\n```diff\n\n--- a/src/components/Labeling/Canvas/NudgeTool.js\n\n+++ b/src/components/Labeling/Canvas/NudgeTool.js\n\n@@ -42,1 +42,1 @@\n\n- const newX = selectedEntity.position.x; // BUG: Not adding the nudge\n\n+ const newX = selectedEntity.position.x + NUDGE_AMOUNT;\n\nAI OUTPUT:\n\n\x7b \"status\": \"PASS\", \"certainty\": 0.98, \"reasoning\": \"The 'PR Git Diff' shows a fix to 'NudgeTool.js' that correctly adds 'NUDGE_AMOUNT' to the X position. The 'Test Context' confirms this is a 'Nudge Right' test. The 'After' image clearly shows the car moved right, which visually confirms the code fix in the diff. This is a PASS.\" \x7d\n\nEXAMPLE 2: (FAIL)\n\n[IMAGE 1: \"before.png\" shows a blue car in the center]\n\n[IMAGE 2: \"after.png\" shows the blue car turning red, but still in the center]\n\nTest Context: \"User presses the 'Nudge Right' button. The selected 4D entity should move to the right.\"\n\nPR Git Diff:\n\n```diff\n--- a/src/components/Labeling/4D/AttributePanel.js\n+++ b/src/components/Labeling/4D/AttributePanel.js\n@@ -110,1 +110,1 @@\n- const newColor = 0x0000FF; // blue\n+ const newColor = 0xFF0000; // red\n\nAI OUTPUT:\n\n\x7b \"status\": \"FAIL\", \"certainty\": 1.0, \"reasoning\": \"The test expected the car to move right. The 'After' image shows the car did not move. The 'PR Git Diff' shows a change to 'AttributePanel.js' related to color, not position. Therefore, the visual change (color) does not match the 'Test Context' (movement). This is a FAIL.\" \x7d\n\nYOUR TASK\n\nTest Context: \""

/-- Between `${testContext}` and `${gitDiff || ...}` in the visual prompt. -/
def visualPromptPreDiff : String :=
  "\"\nGit Diff:\n```diff\n"

/-- Tail of the visual prompt after the diff interpolation. -/
def visualPromptTail : String :=
  "\n```\nJSON ONLY:\n"

/-- The full prompt `analyzeVisualTest` assembles (JS template literal as
concatenation; `gitDiff || '...'` substitutes the placeholder exactly when
the diff string is empty, the one falsy string). -/
def visualPrompt (testContext gitDiff : String) : String :=
  visualPromptIntro ++ movementAwareNote testContext ++ visualPromptMid ++
    testContext ++ visualPromptPreDiff ++
    (if gitDiff.data.isEmpty then "No git diff provided or file is unchanged." else gitDiff) ++
    visualPromptTail

/-- Head of the `analyzeFrameSequenceTest` prompt, up to the `${testContext}`
interpolation. The source applies `.trim()` to its template literal; the
template's leading and trailing whitespace is a constant `"\n"` on each
side (the interpolations sit strictly inside), so the trimmed prompt is
modelled directly. This prompt selects no movement-aware variant. -/
def seqPromptHead : String :=
  "You are a visual QA analyst. You receive an ordered sequence of PNG frames from a Three.js scene.\nDecide PASS or FAIL strictly by the Test Context (Subject / Action / Expectation / Warnings / Pass / Notes).\n\nRules:\n1. First frame = initial state; last frame = final state; intermediates show progression.\n2. Focus ONLY on the Subject.\n3. Ignore apparent rotation caused by camera perspective if Notes say to ignore.\n4. Ignore minor lighting flicker, particles, drawer UI elements.\n5. PASS only if progression matches Expectation and Pass condition.\n\nReturn ONLY JSON:\n\x7b \"status\":\"PASS\"|\"FAIL\", \"certainty\":0.0-1.0, \"reasoning\":\"short factual justification\" \x7d\n\nTest Context: "

/-- Between `${testContext}` and the diff interpolation in the sequence and
video prompts. -/
def seqPromptPreDiff : String :=
  "\nGit Diff:\n```diff\n"

/-- Tail of the sequence and video prompts (after `.trim()`). -/
def seqPromptTail : String :=
  "\n```\nJSON ONLY:"

/-- The full prompt `analyzeFrameSequenceTest` assembles. -/
def frameSequencePrompt (testContext gitDiff : String) : String :=
  seqPromptHead ++ testContext ++ seqPromptPreDiff ++
    (if gitDiff.data.isEmpty then "No git diff." else gitDiff) ++ seqPromptTail

/-- Opening of the `analyzeVideoTest` prompt (trimmed as for the sequence
prompt), up to the `${movementAwareNote}` interpolation. -/
def videoPromptIntro : String :=
  "You are a visual QA analyst provided with a single WebM video that shows an action over time in a Three.js app.\nDecide PASS or FAIL based only on whether the observed visual change matches the Test Context.\nYour goal is to validate if the visual behavior meets the specified expectations. Do not try to consider/error outside this scope of test context.\n\nYou are currently looking at a threeJS application, rendering a 3D scene as well as a orbit camera and UI elements.\nThe camera is viewing the scene in a orthographic projection.\n"

/-- The fixed middle of the video prompt between the note and the
`${testContext}` interpolation. -/
def videoPromptMid : String :=
  "\n\nInstructions:\n1. Identify the subject (blue wireframe box \"MainBox\" or side panel).\n2. Infer start vs end from the video.\n3. PASS if the final visual state matches the expected change; else FAIL.\n4. Be concise, factual. Do not invent details. Ignore minor lighting, noise points, UI unrelated to subject.\n\nReturn ONLY JSON:\n\x7b \"status\":\"PASS\"|\"FAIL\", \"certainty\":0.0-1.0, \"reasoning\":\"short factual justification\" \x7d\n\nTest Context: "

/-- The full prompt `analyzeVideoTest` assembles. -/
def videoPrompt (testContext gitDiff : String) : String :=
  videoPromptIntro ++ movementAwareNote testContext ++ videoPromptMid ++
    testContext ++ seqPromptPreDiff ++
    (if gitDiff.data.isEmpty then "No git diff." else gitDiff) ++ seqPromptTail

/-- The mutable `results` object of run-spec-metrics.js, restricted to the
fields the run loop mutates plus the requested-run count it is initialized
with (`runs` is set once from `--runs` and never written again; the
constant `spec` and `browser` strings and the failure records' diagnostic
fields are elided, a failure keeping its run index). -/
structure MetricsResults where
  runs : Nat
  passRuns : Nat
  failRuns : Nat
  durationsMs : List Nat
  failures : List Nat
deriving DecidableEq

/-- One iteration of the metrics run loop for run `i`: push the run's
duration, then increment exactly one of `passRuns`/`failRuns` (a failing run
also pushes a failure record). -/
def metricsStep (outcome : Nat → Bool) (dur : Nat → Nat) (i : Nat)
    (acc : MetricsResults) : MetricsResults :=
  if outcome i then
    { acc with
      durationsMs := acc.durationsMs ++ [dur i]
      passRuns := acc.passRuns + 1 }
  else
    { acc with
      durationsMs := acc.durationsMs ++ [dur i]
      failRuns := acc.failRuns + 1
      failures := acc.failures ++ [i] }

/-- The run loop `for (let i = 1; i <= runs; i++) { ... }` of
run-spec-metrics.js, by remaining iteration count: after each run,
`if (abortOn && results.failRuns >= abortOn) break` (an `abortOn` of 0 is
the disabled default). `outcome i` is whether run `i` had zero failing
tests; `dur i` its wall-clock duration. -/
def metricsLoop (outcome : Nat → Bool) (dur : Nat → Nat) (abortOn : Nat) :
    Nat → Nat → MetricsResults → MetricsResults
  | _, 0, acc => acc
  | i, remaining + 1, acc =>
    let acc1 := metricsStep outcome dur i acc
    if abortOn ≠ 0 ∧ abortOn ≤ acc1.failRuns then acc1
    else metricsLoop outcome dur abortOn (i + 1) remaining acc1

/-- A whole metrics session: the loop started at run 1 on the freshly
initialized `results` object (its `runs` field holding the requested
count). The object the session ends with is spread into the persisted JSON
report, so these fields are the persisted report's fields. -/
def runSpecMetrics (outcome : Nat → Bool) (dur : Nat → Nat)
    (runs abortOn : Nat) : MetricsResults :=
  metricsLoop outcome dur abortOn 1 runs
    { runs := runs, passRuns := 0, failRuns := 0, durationsMs := [], failures := [] }

/-- `process.exit(results.failRuns ? 1 : 0)`. -/
def metricsExitCode (r : MetricsResults) : Nat :=
  if r.failRuns ≠ 0 then 1 else 0

/-- `String.append` concatenates the underlying character lists. -/
theorem stringAppendData (s t : String) : (s ++ t).data = s.data ++ t.data := rfl

/-- `leadsWith pat hay` holds exactly when `pat` is an initial segment of
`hay`. -/
theorem leadsWith_eq_true (pat : List Char) : ∀ hay : List Char,
    (leadsWith pat hay = true ↔ ∃ t, hay = pat ++ t) := by
  induction pat with
  | nil => intro hay; simp [leadsWith]
  | cons a as ih =>
    intro hay
    cases hay with
    | nil => simp [leadsWith]
    | cons b bs =>
      simp only [leadsWith, Bool.and_eq_true, beq_iff_eq, List.cons_append,
        List.cons.injEq, ih bs]
      constructor
      · rintro ⟨rfl, t, rfl⟩
        exact ⟨t, rfl, rfl⟩
      · rintro ⟨t, rfl, rfl⟩
        exact ⟨rfl, t, rfl⟩

/-- `hasSegment pat hay` holds exactly when `hay` splits around `pat`. -/
theorem hasSegment_eq_true (pat : List Char) : ∀ hay : List Char,
    (hasSegment pat hay = true ↔ ∃ p t, hay = p ++ pat ++ t) := by
  intro hay
  induction hay with
  | nil =>
    simp only [hasSegment, List.isEmpty_iff]
    constructor
    · rintro rfl
      exact ⟨[], [], rfl⟩
    · rintro ⟨p, t, h⟩
      rcases List.append_eq_nil.mp h.symm with ⟨h1, h2⟩
      exact (List.append_eq_nil.mp h1).2
  | cons c rest ih =>
    simp only [hasSegment, Bool.or_eq_true, leadsWith_eq_true, ih]
    constructor
    · rintro (⟨t, h⟩ | ⟨p, t, h⟩)
      · exact ⟨[], t, by simpa using h⟩
      · exact ⟨c :: p, t, by simp [h]⟩
    · rintro ⟨p, t, h⟩
      cases p with
      | nil => exact Or.inl ⟨t, by simpa using h⟩
      | cons d p' =>
        right
        rcases List.cons.injEq .. ▸ h with ⟨rfl, h2⟩
        exact ⟨p', t, by simpa using h2⟩

/-- Substring containment is transitive. -/
theorem strHas_trans {a b c : String} (h1 : strHas a b = true)
    (h2 : strHas b c = true) : strHas a c = true := by
  unfold strHas at *
  obtain ⟨p, t, hp⟩ := (hasSegment_eq_true _ _).mp h1
  obtain ⟨q, s, hq⟩ := (hasSegment_eq_true _ _).mp h2
  exact (hasSegment_eq_true _ _).mpr ⟨p ++ q, s ++ t, by simp [hp, hq]⟩

/-- A string contains its second append component. -/
theorem strHas_append_right (a b : String) : strHas (a ++ b) b = true :=
  (hasSegment_eq_true _ _).mpr ⟨a.data, [], by simp [stringAppendData]⟩

/-- A string contains the middle of a three-way split. -/
theorem strHas_of_parts (a x b : String) : strHas (a ++ x ++ b) x = true :=
  (hasSegment_eq_true _ _).mpr ⟨a.data, b.data, by simp [stringAppendData]⟩

/-- Appending to a string with a nonempty prefix is JS-truthy. -/
theorem jsTruthy_str_append (pre msg : String) (h : pre.data.isEmpty = false) :
    jsTruthy (some (.str (pre ++ msg))) = true := by
  simp only [jsTruthy]
  rw [show (pre ++ msg).data = pre.data ++ msg.data from rfl]
  cases hd : pre.data with
  | nil => simp [hd] at h
  | cons c l => simp

/-- One metrics-loop iteration keeps the requested-run count, adds exactly
one duration, increments exactly one of the two counters, and never
decreases `failRuns`. -/
theorem metricsStep_spec (outcome : Nat → Bool) (dur : Nat → Nat) (i : Nat)
    (acc : MetricsResults) :
    (metricsStep outcome dur i acc).runs = acc.runs ∧
    (metricsStep outcome dur i acc).passRuns + (metricsStep outcome dur i acc).failRuns
      = acc.passRuns + acc.failRuns + 1 ∧
    (metricsStep outcome dur i acc).durationsMs.length = acc.durationsMs.length + 1 ∧
    acc.failRuns ≤ (metricsStep outcome dur i acc).failRuns := by
  unfold metricsStep
  split <;> simp <;> omega

/-- The metrics loop never changes the `runs` field recorded at
initialization. -/
theorem metricsLoop_runs (outcome : Nat → Bool) (dur : Nat → Nat) (abortOn : Nat) :
    ∀ (n i : Nat) (acc : MetricsResults),
      (metricsLoop outcome dur abortOn i n acc).runs = acc.runs := by
  intro n
  induction n with
  | zero => intro i acc; simp [metricsLoop]
  | succ m ih =>
    intro i acc
    simp only [metricsLoop]
    split
    · exact (metricsStep_spec outcome dur i acc).1
    · rw [ih]
      exact (metricsStep_spec outcome dur i acc).1

/-- Executed-run accounting: the counter increments of the metrics loop
match its duration pushes one for one. -/
theorem metricsLoop_count (outcome : Nat → Bool) (dur : Nat → Nat) (abortOn : Nat) :
    ∀ (n i : Nat) (acc : MetricsResults),
      (metricsLoop outcome dur abortOn i n acc).passRuns
          + (metricsLoop outcome dur abortOn i n acc).failRuns
          + acc.durationsMs.length
        = acc.passRuns + acc.failRuns
          + (metricsLoop outcome dur abortOn i n acc).durationsMs.length := by
  intro n
  induction n with
  | zero => intro i acc; simp [metricsLoop]
  | succ m ih =>
    intro i acc
    simp only [metricsLoop]
    split
    · have := metricsStep_spec outcome dur i acc
      omega
    · have h1 := metricsStep_spec outcome dur i acc
      have h2 := ih (i + 1) (metricsStep outcome dur i acc)
      omega

/-- The metrics loop executes at most its remaining-iteration budget. -/
theorem metricsLoop_le (outcome : Nat → Bool) (dur : Nat → Nat) (abortOn : Nat) :
    ∀ (n i : Nat) (acc : MetricsResults),
      (metricsLoop outcome dur abortOn i n acc).passRuns
          + (metricsLoop outcome dur abortOn i n acc).failRuns
        ≤ acc.passRuns + acc.failRuns + n := by
  intro n
  induction n with
  | zero => intro i acc; simp [metricsLoop]
  | succ m ih =>
    intro i acc
    simp only [metricsLoop]
    split
    · have := metricsStep_spec outcome dur i acc
      omega
    · have h1 := metricsStep_spec outcome dur i acc
      have h2 := ih (i + 1) (metricsStep outcome dur i acc)
      omega

/-- If the metrics loop executed fewer runs than its budget, the abort
threshold was enabled and reached. -/
theorem metricsLoop_abort (outcome : Nat → Bool) (dur : Nat → Nat) (abortOn : Nat) :
    ∀ (n i : Nat) (acc : MetricsResults),
      (metricsLoop outcome dur abortOn i n acc).passRuns
            + (metricsLoop outcome dur abortOn i n acc).failRuns
          < acc.passRuns + acc.failRuns + n →
        abortOn ≠ 0 ∧ abortOn ≤ (metricsLoop outcome dur abortOn i n acc).failRuns := by
  intro n
  induction n with
  | zero => intro i acc h; simp [metricsLoop] at h
  | succ m ih =>
    intro i acc
    simp only [metricsLoop]
    split
    · intro _
      have hs := metricsStep_spec outcome dur i acc
      rename_i hcond
      omega
    · intro hlt
      have h1 := metricsStep_spec outcome dur i acc
      exact ih (i + 1) (metricsStep outcome dur i acc) (by omega)

/-- C1: for every Verdict and threshold, the Decision Gate passes iff the
status is PASS and the certainty is at least the threshold (inclusive); a
PASS with certainty strictly below the threshold fails, and a FAIL fails
regardless of certainty. -/
theorem claim_C1_decision_gate (v : Verdict) (t : ℚ) :
    (decideGate v t = true ↔ (v.status = Status.PASS ∧ t ≤ v.certainty)) ∧
    (v.status = Status.PASS → v.certainty < t → decideGate v t = false) ∧
    (v.status = Status.FAIL → decideGate v t = false) := by
  refine ⟨?_, ?_, ?_⟩
  · simp [decideGate, Bool.and_eq_true, beq_iff_eq]
  · intro h1 h2
    simp [decideGate, h1, not_le.mpr h2]
  · intro h1
    simp [decideGate, h1]

/-- C9: the Decision Gate is monotonic in the threshold — if a verdict
passes at the higher threshold it also passes at any lower one. -/
theorem claim_C9_gate_monotone (v : Verdict) (t1 t2 : ℚ) (h : t1 < t2)
    (hp : decideGate v t2 = true) : decideGate v t1 = true := by
  simp only [decideGate, Bool.and_eq_true, decide_eq_true_eq] at hp ⊢
  exact ⟨hp.1, le_trans (le_of_lt h) hp.2⟩

/-- C9 witness: the monotonicity theorem applied at the verdict
(PASS, 0.9) with thresholds 0.8 < 0.85. -/
theorem claim_C9_gate_monotone_witness :
    decideGate ⟨Status.PASS, 0.9, "box moved right"⟩ 0.8 = true :=
  claim_C9_gate_monotone ⟨Status.PASS, 0.9, "box moved right"⟩ 0.8 0.85
    (by norm_num) (by norm_num [decideGate])

/-- C2 (counterexample): the single-pair validation accepts a reply with
certainty 2.0 — a value outside [0.0, 1.0] — and propagates it as-is
instead of replacing it by a synthetic FAIL with certainty 0.0. -/
theorem claim_C2_counterexample :
    analyzeVisualTest
        (.ok (⟨some (.str "PASS"), some (.num 2), some (.str "looks right")⟩, none)) =
      ⟨some (.str "PASS"), some (.num 2), some (.str "looks right"), none⟩ ∧
    ¬((2 : ℚ) ≤ 1) := by
  refine ⟨by decide, by norm_num⟩

/-- C2 (amended): every Verdict the single-pair analyzer returns has status
PASS or FAIL and a truthy (in particular non-empty-string) reasoning, and
is either the validated reply passed through unchanged or the synthetic
FAIL with certainty 0.0 that replaces a parse error, missing field, wrong
type or invalid enumerator; the certainty range is not validated. -/
theorem claim_C2_visual_validation (o : GatewayOutcome) :
    ((analyzeVisualTest o).status = some (.str "PASS") ∨
      (analyzeVisualTest o).status = some (.str "FAIL")) ∧
    jsTruthy (analyzeVisualTest o).reasoning = true ∧
    ((∃ p u, o = .ok (p, u) ∧ visualFieldsOk p = true ∧ visualStatusOk p = true ∧
        analyzeVisualTest o = ⟨p.status, p.certainty, p.reasoning, none⟩) ∨
      ((analyzeVisualTest o).status = some (.str "FAIL") ∧
        (analyzeVisualTest o).certainty = some (.num 0))) := by
  rcases o with msg | ⟨p, u⟩
  · refine ⟨Or.inr rfl, ?_, Or.inr ⟨rfl, rfl⟩⟩
    exact jsTruthy_str_append "Error during AI analysis: " msg (by decide)
  · by_cases h1 : visualFieldsOk p
    · by_cases h2 : visualStatusOk p
      · have hres : analyzeVisualTest (.ok (p, u)) =
            ⟨p.status, p.certainty, p.reasoning, none⟩ := by
          simp [analyzeVisualTest, h1, h2]
        refine ⟨?_, ?_, Or.inl ⟨p, u, rfl, h1, h2, hres⟩⟩
        · have h2' := h2
          simp only [visualStatusOk, Bool.or_eq_true, beq_iff_eq] at h2'
          rcases h2' with hs | hs
          · exact Or.inl (by rw [hres]; exact hs)
          · exact Or.inr (by rw [hres]; exact hs)
        · rw [hres]
          have h1' := h1
          simp only [visualFieldsOk, Bool.and_eq_true] at h1'
          exact h1'.2
      · have hres : analyzeVisualTest (.ok (p, u)) =
            visualSynthetic "AI status is invalid (must be PASS or FAIL)." := by
          simp [analyzeVisualTest, h1, h2]
        rw [hres]
        exact ⟨Or.inr rfl,
          jsTruthy_str_append "Error during AI analysis: " _ (by decide),
          Or.inr ⟨rfl, rfl⟩⟩
    · have hres : analyzeVisualTest (.ok (p, u)) =
          visualSynthetic
            "AI response missing required fields (status, certainty, reasoning)." := by
        simp [analyzeVisualTest, h1]
      rw [hres]
      exact ⟨Or.inr rfl,
        jsTruthy_str_append "Error during AI analysis: " _ (by decide),
        Or.inr ⟨rfl, rfl⟩⟩

/-- C3: with a credential present, a transport/authentication/service error
raised during the judge call is not propagated — each analyzer returns a
verdict with status FAIL, certainty 0.0 and a reasoning that contains the
error message; the analyzers that carry token counters return them all
zero (the single-pair analyzer attaches no counters at all). -/
theorem claim_C3_gateway_error_degrades (apiKey : Option String) (msg : String)
    (h : envTruthy apiKey = true) :
    (analyzeVisualTestRun apiKey (.error msg)).result = .ok (visualSynthetic msg) ∧
    (analyzeFrameSequenceTestRun apiKey (.error msg)).result = .ok (seqErrorResult msg) ∧
    (analyzeVideoTestRun apiKey (.error msg)).result = .ok (seqErrorResult msg) ∧
    (visualSynthetic msg).status = some (.str "FAIL") ∧
    (visualSynthetic msg).certainty = some (.num 0) ∧
    (visualSynthetic msg).reasoning = some (.str ("Error during AI analysis: " ++ msg)) ∧
    strHas ("Error during AI analysis: " ++ msg) msg = true ∧
    (visualSynthetic msg).tokens = none ∧
    (seqErrorResult msg).status = some (.str "FAIL") ∧
    (seqErrorResult msg).certainty = some (.num 0) ∧
    (seqErrorResult msg).reasoning = some (.str ("Error: " ++ msg)) ∧
    strHas ("Error: " ++ msg) msg = true ∧
    (seqErrorResult msg).tokens = some ⟨0, 0, 0⟩ := by
  refine ⟨?_, ?_, ?_, rfl, rfl, rfl, strHas_append_right _ _, rfl, rfl, rfl, rfl,
    strHas_append_right _ _, rfl⟩ <;>
    simp [analyzeVisualTestRun, analyzeFrameSequenceTestRun, analyzeVideoTestRun, h,
      analyzeVisualTest, analyzeFrameSequenceTest, analyzeVideoTest]

/-- C3 witness: the error-degradation theorem applied at a present
credential and the simulated transport error "timeout". -/
theorem claim_C3_gateway_error_degrades_witness :
    (analyzeVisualTestRun (some "key") (.error "timeout")).result =
        .ok (visualSynthetic "timeout") ∧
    (analyzeFrameSequenceTestRun (some "key") (.error "timeout")).result =
        .ok (seqErrorResult "timeout") ∧
    (analyzeVideoTestRun (some "key") (.error "timeout")).result =
        .ok (seqErrorResult "timeout") ∧
    (visualSynthetic "timeout").status = some (.str "FAIL") ∧
    (visualSynthetic "timeout").certainty = some (.num 0) ∧
    (visualSynthetic "timeout").reasoning =
        some (.str ("Error during AI analysis: " ++ "timeout")) ∧
    strHas ("Error during AI analysis: " ++ "timeout") "timeout" = true ∧
    (visualSynthetic "timeout").tokens = none ∧
    (seqErrorResult "timeout").status = some (.str "FAIL") ∧
    (seqErrorResult "timeout").certainty = some (.num 0) ∧
    (seqErrorResult "timeout").reasoning = some (.str ("Error: " ++ "timeout")) ∧
    strHas ("Error: " ++ "timeout") "timeout" = true ∧
    (seqErrorResult "timeout").tokens = some ⟨0, 0, 0⟩ :=
  claim_C3_gateway_error_degrades (some "key") "timeout" (by decide)

/-- C4: when the GEMINI_API_KEY credential is absent or empty, every
analyzer raises the configuration error to its caller — it is not converted
into a synthetic FAIL verdict — and no network attempt is made, whatever
the gateway would have answered. -/
theorem claim_C4_missing_credential (apiKey : Option String)
    (o1 o2 o3 : GatewayOutcome) (h : envTruthy apiKey = false) :
    analyzeVisualTestRun apiKey o1 =
      ⟨.error "GEMINI_API_KEY environment variable not set.", false⟩ ∧
    analyzeFrameSequenceTestRun apiKey o2 = ⟨.error "GEMINI_API_KEY not set", false⟩ ∧
    analyzeVideoTestRun apiKey o3 = ⟨.error "GEMINI_API_KEY not set", false⟩ := by
  refine ⟨?_, ?_, ?_⟩ <;>
    simp [analyzeVisualTestRun, analyzeFrameSequenceTestRun, analyzeVideoTestRun, h]

/-- C4 witness: the fail-fast theorem applied at an absent credential and at
an empty-string credential, with a gateway outcome in hand that is never
consulted. -/
theorem claim_C4_missing_credential_witness :
    analyzeVisualTestRun none (.error "x") =
      ⟨.error "GEMINI_API_KEY environment variable not set.", false⟩ ∧
    analyzeVisualTestRun (some "") (.error "x") =
      ⟨.error "GEMINI_API_KEY environment variable not set.", false⟩ :=
  ⟨(claim_C4_missing_credential none (.error "x") (.error "x") (.error "x") rfl).1,
    (claim_C4_missing_credential (some "") (.error "x") (.error "x") (.error "x") rfl).1⟩

/-- C5: across one metrics session, passRuns + failRuns equals the number of
executed runs (each executed run increments exactly one counter and pushes
exactly one duration), is at most the requested run count, falls short of
it only when the abort threshold was enabled and reached, and the process
exit code is non-zero iff failRuns is positive. -/
theorem claim_C5_metrics_invariants (outcome : Nat → Bool) (dur : Nat → Nat)
    (runs abortOn : Nat) :
    (runSpecMetrics outcome dur runs abortOn).passRuns
        + (runSpecMetrics outcome dur runs abortOn).failRuns
      = (runSpecMetrics outcome dur runs abortOn).durationsMs.length ∧
    (runSpecMetrics outcome dur runs abortOn).passRuns
        + (runSpecMetrics outcome dur runs abortOn).failRuns ≤ runs ∧
    ((runSpecMetrics outcome dur runs abortOn).passRuns
          + (runSpecMetrics outcome dur runs abortOn).failRuns < runs →
      abortOn ≠ 0 ∧ abortOn ≤ (runSpecMetrics outcome dur runs abortOn).failRuns) ∧
    (metricsExitCode (runSpecMetrics outcome dur runs abortOn) ≠ 0 ↔
      0 < (runSpecMetrics outcome dur runs abortOn).failRuns) := by
  have hc := metricsLoop_count outcome dur abortOn runs 1
    { runs := runs, passRuns := 0, failRuns := 0, durationsMs := [], failures := [] }
  have hl := metricsLoop_le outcome dur abortOn runs 1
    { runs := runs, passRuns := 0, failRuns := 0, durationsMs := [], failures := [] }
  have ha := metricsLoop_abort outcome dur abortOn runs 1
    { runs := runs, passRuns := 0, failRuns := 0, durationsMs := [], failures := [] }
  simp only [runSpecMetrics]
  dsimp only at hc hl ha
  simp only [List.length_nil] at hc
  refine ⟨by omega, by omega, fun hlt => ha (by omega), ?_⟩
  simp only [metricsExitCode]
  split <;> omega

/-- C6 (counterexample): with totalRuns 5, abortOnFails 2 and every run
failing, the persisted report's total-run-count field (`runs`, spread into
the report JSON) still records the requested 5, not the 2 runs executed,
although failRuns is 2. -/
theorem claim_C6_counterexample :
    (runSpecMetrics (fun _ => false) (fun _ => 0) 5 2).failRuns = 2 ∧
    (runSpecMetrics (fun _ => false) (fun _ => 0) 5 2).runs = 5 ∧
    (runSpecMetrics (fun _ => false) (fun _ => 0) 5 2).runs ≠ 2 := by
  decide

/-- C6 (amended): with totalRuns 5, abortOnFails 2 and runs 1 and 2 failing,
the run loop stops after run 2 without issuing further runs — the report
holds exactly two run durations and two failure records, failRuns 2 and
passRuns 0 — while the report's `runs` field keeps the requested 5; the
executed-run count is recorded as the length of the durations list. -/
theorem claim_C6_abort_after_two_runs :
    (runSpecMetrics (fun _ => false) (fun _ => 0) 5 2).durationsMs.length = 2 ∧
    (runSpecMetrics (fun _ => false) (fun _ => 0) 5 2).failRuns = 2 ∧
    (runSpecMetrics (fun _ => false) (fun _ => 0) 5 2).passRuns = 0 ∧
    (runSpecMetrics (fun _ => false) (fun _ => 0) 5 2).failures = [1, 2] ∧
    (runSpecMetrics (fun _ => false) (fun _ => 0) 5 2).runs = 5 := by
  decide

/-- C7 (counterexample): for a test context whose expectation plainly uses
movement vocabulary ("shift"), the frame-sequence judge request contains
neither the movement-aware instruction nor the positional-stability
instruction — the selection is not applied on the frame-sequence path. -/
theorem claim_C7_counterexample :
    movementIntent "Expectation: Progressive horizontal shift to screen-right." = true ∧
    strHas (frameSequencePrompt
        "Expectation: Progressive horizontal shift to screen-right." "")
      movementNoteText = false ∧
    strHas (frameSequencePrompt
        "Expectation: Progressive horizontal shift to screen-right." "")
      stabilityNoteText = false := by
  refine ⟨by decide, ?_, ?_⟩
  · have hmust : strHas (frameSequencePrompt
        "Expectation: Progressive horizontal shift to screen-right." "") "MUST"
        = false := by decide
    have hin : strHas movementNoteText "MUST" = true := by decide
    cases hc : strHas (frameSequencePrompt
        "Expectation: Progressive horizontal shift to screen-right." "")
        movementNoteText
    · rfl
    · rw [strHas_trans hc hin] at hmust
      exact absurd hmust (by simp)
  · have hassume : strHas (frameSequencePrompt
        "Expectation: Progressive horizontal shift to screen-right." "") "Assume"
        = false := by decide
    have hin : strHas stabilityNoteText "Assume" = true := by decide
    cases hc : strHas (frameSequencePrompt
        "Expectation: Progressive horizontal shift to screen-right." "")
        stabilityNoteText
    · rfl
    · rw [strHas_trans hc hin] at hassume
      exact absurd hassume (by simp)

/-- C7 (amended): on the single-pair and video paths the selected
instruction is injected into the judge request — the movement-aware variant
exactly when the test context matches the movement vocabulary
(move/shift/translate, case-insensitive), the positional-stability variant
otherwise; the frame-sequence prompt applies no such selection (see the
counterexample). -/
theorem claim_C7_movement_note_selection (ctx gitDiff : String) :
    strHas (visualPrompt ctx gitDiff) (movementAwareNote ctx) = true ∧
    strHas (videoPrompt ctx gitDiff) (movementAwareNote ctx) = true ∧
    movementAwareNote ctx =
      (if movementIntent ctx = true then movementNoteText else stabilityNoteText) ∧
    movementNoteText ≠ stabilityNoteText := by
  refine ⟨?_, ?_, ?_, by decide⟩
  · have hsplit : visualPrompt ctx gitDiff =
        visualPromptIntro ++ movementAwareNote ctx ++
          (visualPromptMid ++ ctx ++ visualPromptPreDiff ++
            (if gitDiff.data.isEmpty then
              "No git diff provided or file is unchanged." else gitDiff) ++
            visualPromptTail) := by
      apply String.ext
      simp [visualPrompt, stringAppendData, List.append_assoc]
    rw [hsplit]
    exact strHas_of_parts _ _ _
  · have hsplit : videoPrompt ctx gitDiff =
        videoPromptIntro ++ movementAwareNote ctx ++
          (videoPromptMid ++ ctx ++ seqPromptPreDiff ++
            (if gitDiff.data.isEmpty then "No git diff." else gitDiff) ++
            seqPromptTail) := by
      apply String.ext
      simp [videoPrompt, stringAppendData, List.append_assoc]
    rw [hsplit]
    exact strHas_of_parts _ _ _
  · simp [movementAwareNote]

/-- C8 (counterexample): with prompt and candidates counters present (5 and
3) and the total counter absent, the attached total defaults to their sum 8,
not to zero. -/
theorem claim_C8_counterexample :
    tokenCountsFromUsage ⟨some 5, some 3, none⟩ = ⟨5, 3, 8⟩ ∧
    (analyzeFrameSequenceTest (.ok (⟨some (.str "PASS"), some (.num 1), some (.str "ok")⟩,
        some ⟨some 5, some 3, none⟩))).tokens = some ⟨5, 3, 8⟩ ∧
    (8 : Nat) ≠ 0 := by
  decide

/-- C8 (amended): on a successful judge response the usage counters present
in the service's usage metadata pass through to the returned verdict
unchanged; an absent prompt or candidates counter defaults to zero, and an
absent total counter defaults to the sum of the (defaulted) prompt and
candidates counters rather than causing a failure. -/
theorem claim_C8_token_passthrough (p c t : Nat) (pobj : VerdictObj)
    (u : UsageMetadata) :
    tokenCountsFromUsage ⟨some p, some c, some t⟩ = ⟨p, c, t⟩ ∧
    tokenCountsFromUsage ⟨none, none, none⟩ = ⟨0, 0, 0⟩ ∧
    tokenCountsFromUsage ⟨none, some c, some t⟩ = ⟨0, c, t⟩ ∧
    tokenCountsFromUsage ⟨some p, none, some t⟩ = ⟨p, 0, t⟩ ∧
    tokenCountsFromUsage ⟨some p, some c, none⟩ = ⟨p, c, p + c⟩ ∧
    (analyzeFrameSequenceTest (.ok (pobj, some u))).tokens =
      some (tokenCountsFromUsage u) ∧
    (analyzeVideoTest (.ok (pobj, some u))).tokens = some (tokenCountsFromUsage u) ∧
    (analyzeFrameSequenceTest (.ok (pobj, none))).tokens =
      some (tokenCountsFromUsage ⟨none, none, none⟩) := by
  refine ⟨rfl, rfl, rfl, rfl, rfl, rfl, rfl, rfl⟩

/-- C10: the single-pair analyzer's result never carries a token record,
whatever the gateway outcome (usage metadata included), while the
frame-sequence and video analyzers always attach one. -/
theorem claim_C10_visual_has_no_tokens (o : GatewayOutcome) :
    (analyzeVisualTest o).tokens = none ∧
    (analyzeFrameSequenceTest o).tokens.isSome = true ∧
    (analyzeVideoTest o).tokens.isSome = true := by
  rcases o with msg | ⟨p, u⟩
  · exact ⟨rfl, rfl, rfl⟩
  · refine ⟨?_, rfl, rfl⟩
    by_cases h1 : visualFieldsOk p
    · by_cases h2 : visualStatusOk p
      · simp [analyzeVisualTest, h1, h2]
      · simp [analyzeVisualTest, h1, h2, visualSynthetic]
    · simp [analyzeVisualTest, h1, visualSynthetic]
